import Mathlib

/-! Handle ownership in `ref_storage::net`.

A shallow embedding of `SocketHandle` (src/net/src/SocketHandle.cpp) and
`SocketFD` (src/net/src/SocketFD.cpp): the two move-only wrappers around one
native socket value.

* The raw value is an integer; the sentinel `kInvalid` depends on the platform
  chosen at build time (`INVALID_SOCKET` on Windows, `-1` on Linux).
* Mutating member functions are written in state-passing style: they take the
  object and the world and give back the new object and the new world.
* The world records every native call the code issues (`trace`, oldest first)
  and every line written to `std::cerr`.
* What a native call returns is not decided by the code: it is read from an
  arbitrary `OS`, which may answer differently depending on the history.
* Functions that are not `noexcept` give an `Outcome`: the value returned or the
  `std::system_error` thrown, and the world at that point. `throw_last_error` always
  throws, so the statements after a call to it are the `else` branch.
* `noexcept` functions have no `throw` in their bodies and are plain total functions.
-/

namespace ref_storage.net

/-- The two build configurations selected by `#ifdef _WIN32` / `#elif __linux__`. -/
inductive Platform where
  | win32
  | linux
  deriving DecidableEq, Repr

/-- The type `NativeSocketType`: `SOCKET` on Windows, `int` on Linux. -/
abbrev NativeSocketType := Int

/-- The constant `kInvalid`: `INVALID_SOCKET` (all 64 bits set) on Windows, `-1` on Linux. -/
def kInvalid : Platform → NativeSocketType
  | .win32 => 18446744073709551615
  | .linux => -1

/-- Header constant `AF_UNSPEC`. -/
def AF_UNSPEC : Int := 0
/-- Header constant `SOCK_STREAM`. -/
def SOCK_STREAM : Int := 1
/-- Header constant `SD_BOTH` (winsock2.h). -/
def SD_BOTH : Int := 2
/-- Header constant `SHUT_RDWR` (sys/socket.h). -/
def SHUT_RDWR : Int := 2
/-- Header constant `O_NONBLOCK` (fcntl.h, octal 04000). -/
def O_NONBLOCK : Int := 2048

/-- The native calls made by the two classes, with the arguments the code passes. -/
inductive Syscall where
  /-- The call `socket(af, type, protocol)`. -/
  | socket (af ty protocol : Int)
  /-- The call `setsockopt(s, SOL_SOCKET, SO_LINGER, &linger_opt, sizeof linger_opt)`. -/
  | setsockopt_linger (s : NativeSocketType) (l_onoff l_linger : Int)
  /-- The call `shutdown(s, how)`. -/
  | shutdown (s : NativeSocketType) (how : Int)
  /-- The call `ioctlsocket(s, FIONBIO, &mode)`. -/
  | ioctlsocket_fionbio (s : NativeSocketType) (mode : Int)
  /-- The call `fcntl(s, F_GETFL, 0)`. -/
  | fcntl_getfl (s : NativeSocketType)
  /-- The call `fcntl(s, F_SETFL, flags)`. -/
  | fcntl_setfl (s : NativeSocketType) (flags : Int)
  /-- The platform close: `closesocket(s)` on Windows, `close(s)` on Linux. -/
  | close (s : NativeSocketType)
  /-- The call `bind(s, addr, addrlen)`. -/
  | bind (s : NativeSocketType) (addr addrlen : Int)
  /-- The call `listen(s, backlog)`. -/
  | listen (s : NativeSocketType) (backlog : Int)
  /-- The call `accept(s, addr, addrlen)`. -/
  | accept (s : NativeSocketType) (addr addrlen : Int)
  /-- The call `WSAStartup(MAKEWORD(major, minor), &wsaData)`. -/
  | WSAStartup (major minor : Int)
  /-- The call `WSACleanup()`. -/
  | WSACleanup
  /-- The call `setsockopt(s, SOL_SOCKET, SO_REUSEADDR, &opt, sizeof opt)`. -/
  | setsockopt_reuseaddr (s : NativeSocketType) (opt : Int)
  deriving DecidableEq, Repr

/-- The operating system as seen by the code: the value each native call returns, and the
thread's last error code (`errno` / `WSAGetLastError()`), both as functions of the calls
issued before. -/
structure OS where
  ret : List Syscall → Syscall → Int
  last_error : List Syscall → Int

/-- Everything the code can change outside its own objects. -/
structure World where
  trace : List Syscall
  cerr : List String
  deriving DecidableEq, Repr

/-- Issue one native call: read its return value from the OS and record it. -/
def sys (os : OS) (c : Syscall) (w : World) : Int × World :=
  (os.ret w.trace c, { w with trace := w.trace ++ [c] })

/-- The exception type `std::system_error`: an error code and the `operation` text. -/
structure SystemError where
  code : Int
  what : String
  deriving DecidableEq, Repr

/-- What a call that may throw leaves behind: the value returned or the exception thrown,
and the world. -/
abbrev Outcome (α : Type) := Except SystemError α × World

/-- The helper `throw_last_error` (identical in both classes): always throws, carrying the
thread's last error code at that moment. -/
def throw_last_error {α : Type} (os : OS) (operation : String) (w : World) : Outcome α :=
  (.error ⟨os.last_error w.trace, operation⟩, w)

/-! ## SocketHandle -/

/-- The class `SocketHandle`: its only data member is `_handle`. -/
structure SocketHandle where
  _handle : NativeSocketType
  deriving DecidableEq, Repr

namespace SocketHandle

/-- The default constructor: `_handle` takes its member initialiser `kInvalid`. -/
def default_ctor (p : Platform) : SocketHandle := ⟨kInvalid p⟩

/-- The constructor `explicit SocketHandle(NativeSocketType fd)`. -/
def from_native (fd : NativeSocketType) : SocketHandle := ⟨fd⟩

/-- The accessor `native_handle()`. -/
def native_handle (self : SocketHandle) : NativeSocketType := self._handle

/-- The conversion `explicit operator bool()`. -/
def to_bool (p : Platform) (self : SocketHandle) : Bool := self._handle != kInvalid p

/-- The check `is_valid_handle()`. -/
def is_valid_handle (p : Platform) (self : SocketHandle) : Bool := self.to_bool p

/-- The move constructor: `_handle(std::exchange(other._handle, kInvalid))`.
Returns the new object and the moved-from `other`. -/
def move_ctor (p : Platform) (other : SocketHandle) : SocketHandle × SocketHandle :=
  (⟨other._handle⟩, ⟨kInvalid p⟩)

/-- The member `release_handle()`: `std::exchange(_handle, kInvalid)`.
Returns the value and the object afterwards. -/
def release_handle (p : Platform) (self : SocketHandle) : NativeSocketType × SocketHandle :=
  (self._handle, ⟨kInvalid p⟩)

/-- The member `close_handle()`. -/
def close_handle (p : Platform) (os : OS) (self : SocketHandle) (w : World) :
    SocketHandle × World :=
  if self.is_valid_handle p then
    let w1 := (sys os (.setsockopt_linger self._handle 1 1) w).2
    let w2 :=
      match p with
      | .win32 =>
        let wa := (sys os (.shutdown self._handle SD_BOTH) w1).2
        (sys os (.ioctlsocket_fionbio self._handle 1) wa).2
      | .linux =>
        let wa := (sys os (.shutdown self._handle SHUT_RDWR) w1).2
        let r := sys os (.fcntl_getfl self._handle) wa
        (sys os (.fcntl_setfl self._handle (Int.lor r.1 O_NONBLOCK)) r.2).2
    let r := sys os (.close self._handle) w2
    let w3 :=
      if r.1 = -1 then
        { r.2 with cerr := r.2.cerr ++
            ["Warning: close_handle() failed: " ++ toString self._handle] }
      else r.2
    (⟨kInvalid p⟩, w3)
  else (self, w)

/-- The member `reset_handle(new_handle)`. -/
def reset_handle (p : Platform) (os : OS) (self : SocketHandle) (new_handle : NativeSocketType)
    (w : World) : SocketHandle × World :=
  let r := self.close_handle p os w
  (⟨new_handle⟩, r.2)

/-- The member `reset_handle()` with its default argument `kInvalid`. -/
def reset_handle_default (p : Platform) (os : OS) (self : SocketHandle) (w : World) :
    SocketHandle × World :=
  self.reset_handle p os (kInvalid p) w

/-- The body of `operator=(SocketHandle&&)` on the branch `this != &other`.
Returns `*this`, `other` and the world afterwards. -/
def move_assign (p : Platform) (os : OS) (self other : SocketHandle) (w : World) :
    SocketHandle × SocketHandle × World :=
  let r := self.close_handle p os w
  (⟨other._handle⟩, ⟨kInvalid p⟩, r.2)

/-- The destructor: `close_handle()`, after which the object is gone. -/
def dtor (p : Platform) (os : OS) (self : SocketHandle) (w : World) : World :=
  (self.close_handle p os w).2

/-- The member `bind_handle(addr, addrlen)`. -/
def bind_handle (p : Platform) (os : OS) (self : SocketHandle) (addr addrlen : Int)
    (w : World) : Outcome Int :=
  if !self.is_valid_handle p then
    throw_last_error os "bind_handle() failed: Invalid socket " w
  else
    let r := sys os (.bind self._handle addr addrlen) w
    (.ok r.1, r.2)

/-- The member `listen_handle(backlog)`. -/
def listen_handle (p : Platform) (os : OS) (self : SocketHandle) (backlog : Int)
    (w : World) : Outcome Int :=
  if !self.is_valid_handle p then
    throw_last_error os "listen_handle() failed: Invalid socket " w
  else
    let r := sys os (.listen self._handle backlog) w
    (.ok r.1, r.2)

/-- The member `accept_handle(addr, addrlen)`: not `noexcept`, but without a `throw`. -/
def accept_handle (p : Platform) (os : OS) (self : SocketHandle) (addr addrlen : Int)
    (w : World) : Outcome SocketHandle :=
  if !self.is_valid_handle p then
    (.ok (from_native (kInvalid p)), w)
  else
    let new_handle := sys os (.accept self._handle addr addrlen) w
    (.ok (from_native new_handle.1), new_handle.2)

/-- The factory `create_socket_handle()`. -/
def create_socket_handle (p : Platform) (os : OS) (w : World) : Outcome SocketHandle :=
  let sock := sys os (.socket AF_UNSPEC SOCK_STREAM 0) w
  if sock.1 = kInvalid p then
    throw_last_error os "socket() failed" sock.2
  else
    (.ok (from_native sock.1), sock.2)

end SocketHandle

/-! ## SocketFD -/

/-- The class `SocketFD`: its only data member is `_handle`. -/
structure SocketFD where
  _handle : NativeSocketType
  deriving DecidableEq, Repr

namespace SocketFD

/-- The default constructor: `_handle` takes its member initialiser `kInvalid`. -/
def default_ctor (p : Platform) : SocketFD := ⟨kInvalid p⟩

/-- The constructor `explicit SocketFD(NativeSocketType fd)`. -/
def from_native (fd : NativeSocketType) : SocketFD := ⟨fd⟩

/-- The accessor `native_handle()`. -/
def native_handle (self : SocketFD) : NativeSocketType := self._handle

/-- The conversion `explicit operator bool()`. -/
def to_bool (p : Platform) (self : SocketFD) : Bool := self._handle != kInvalid p

/-- The check `is_valid_handle()`. -/
def is_valid_handle (p : Platform) (self : SocketFD) : Bool := self.to_bool p

/-- The move constructor: `_handle(std::exchange(other._handle, kInvalid))`.
Returns the new object and the moved-from `other`. -/
def move_ctor (p : Platform) (other : SocketFD) : SocketFD × SocketFD :=
  (⟨other._handle⟩, ⟨kInvalid p⟩)

/-- The member `release_handle()`: `std::exchange(_handle, kInvalid)`.
Returns the value and the object afterwards. -/
def release_handle (p : Platform) (self : SocketFD) : NativeSocketType × SocketFD :=
  (self._handle, ⟨kInvalid p⟩)

/-- The member `close_handle()`: the platform close alone, its result ignored. -/
def close_handle (p : Platform) (os : OS) (self : SocketFD) (w : World) : SocketFD × World :=
  if self.is_valid_handle p then
    let w1 := (sys os (.close self._handle) w).2
    (⟨kInvalid p⟩, w1)
  else (self, w)

/-- The member `reset_handle(new_handle)`. -/
def reset_handle (p : Platform) (os : OS) (self : SocketFD) (new_handle : NativeSocketType)
    (w : World) : SocketFD × World :=
  let r := self.close_handle p os w
  (⟨new_handle⟩, r.2)

/-- The member `reset_handle()` with its default argument `kInvalid`. -/
def reset_handle_default (p : Platform) (os : OS) (self : SocketFD) (w : World) :
    SocketFD × World :=
  self.reset_handle p os (kInvalid p) w

/-- The body of `operator=(SocketFD&&)` on the branch `this != &other`.
Returns `*this`, `other` and the world afterwards. -/
def move_assign (p : Platform) (os : OS) (self other : SocketFD) (w : World) :
    SocketFD × SocketFD × World :=
  let r := self.close_handle p os w
  (⟨other._handle⟩, ⟨kInvalid p⟩, r.2)

/-- The destructor: `close_handle()`, after which the object is gone. -/
def dtor (p : Platform) (os : OS) (self : SocketFD) (w : World) : World :=
  (self.close_handle p os w).2

/-- The member `bind_handle(addr, addrlen)`: `-1` on an invalid handle. -/
def bind_handle (p : Platform) (os : OS) (self : SocketFD) (addr addrlen : Int)
    (w : World) : Outcome Int :=
  if !self.is_valid_handle p then
    (.ok (-1), w)
  else
    let r := sys os (.bind self._handle addr addrlen) w
    (.ok r.1, r.2)

/-- The member `listen_handle(backlog)`: `-1` on an invalid handle. -/
def listen_handle (p : Platform) (os : OS) (self : SocketFD) (backlog : Int)
    (w : World) : Outcome Int :=
  if !self.is_valid_handle p then
    (.ok (-1), w)
  else
    let r := sys os (.listen self._handle backlog) w
    (.ok r.1, r.2)

/-- The member `accept_handle(addr, addrlen)`: not `noexcept`, but without a `throw`. -/
def accept_handle (p : Platform) (os : OS) (self : SocketFD) (addr addrlen : Int)
    (w : World) : Outcome SocketFD :=
  if !self.is_valid_handle p then
    (.ok (from_native (kInvalid p)), w)
  else
    let new_handle := sys os (.accept self._handle addr addrlen) w
    (.ok (from_native new_handle.1), new_handle.2)

/-- The factory `create_socket_fd()`. -/
def create_socket_fd (p : Platform) (os : OS) (w : World) : Outcome SocketFD :=
  let sock := sys os (.socket AF_UNSPEC SOCK_STREAM 0) w
  if sock.1 = kInvalid p then
    throw_last_error os "socket() failed" sock.2
  else
    (.ok (from_native sock.1), sock.2)

end SocketFD

/-! ## Objects in memory

`operator=` compares addresses (`this != &other`), so assignment is modelled on a store of
objects: position `i` of `objs` is the address of an object, `some o` a live instance,
`none` an address whose object has been destroyed. A store may hold objects of both
classes. -/

/-- The two classes. -/
inductive HandleClass where
  | SocketHandle
  | SocketFD
  deriving DecidableEq, Repr

/-- An object of either class: its class and the value of its `_handle` member. -/
structure Obj where
  cls : HandleClass
  _handle : NativeSocketType
  deriving DecidableEq, Repr

/-- The check `is_valid_handle()` of the given class, on the `_handle` member. -/
def valid_raw (c : HandleClass) (p : Platform) (v : NativeSocketType) : Bool :=
  match c with
  | .SocketHandle => SocketHandle.is_valid_handle p ⟨v⟩
  | .SocketFD => SocketFD.is_valid_handle p ⟨v⟩

/-- The member `close_handle()` of the given class, on the `_handle` member. -/
def close_raw (c : HandleClass) (p : Platform) (os : OS) (v : NativeSocketType) (w : World) :
    NativeSocketType × World :=
  match c with
  | .SocketHandle => let r := SocketHandle.close_handle p os ⟨v⟩ w; (r.1._handle, r.2)
  | .SocketFD => let r := SocketFD.close_handle p os ⟨v⟩ w; (r.1._handle, r.2)

/-- The move constructor of the given class: `_handle` of the new object and of `other`. -/
def ctor_raw (c : HandleClass) (p : Platform) (s : NativeSocketType) :
    NativeSocketType × NativeSocketType :=
  match c with
  | .SocketHandle => let r := SocketHandle.move_ctor p ⟨s⟩; (r.1._handle, r.2._handle)
  | .SocketFD => let r := SocketFD.move_ctor p ⟨s⟩; (r.1._handle, r.2._handle)

/-- The branch `this != &other` of `operator=` of the given class: `_handle` of `*this` and
of `other` afterwards, and the world. -/
def assign_raw (c : HandleClass) (p : Platform) (os : OS) (d s : NativeSocketType) (w : World) :
    NativeSocketType × NativeSocketType × World :=
  match c with
  | .SocketHandle =>
    let r := SocketHandle.move_assign p os ⟨d⟩ ⟨s⟩ w; (r.1._handle, r.2.1._handle, r.2.2)
  | .SocketFD =>
    let r := SocketFD.move_assign p os ⟨d⟩ ⟨s⟩ w; (r.1._handle, r.2.1._handle, r.2.2)

/-- The destructor of the given class. -/
def dtor_raw (c : HandleClass) (p : Platform) (os : OS) (v : NativeSocketType) (w : World) :
    World :=
  match c with
  | .SocketHandle => SocketHandle.dtor p os ⟨v⟩ w
  | .SocketFD => SocketFD.dtor p os ⟨v⟩ w

/-- A store of objects, and the world. -/
structure Machine where
  objs : List (Option Obj)
  world : World
  deriving DecidableEq, Repr

/-- Look up the live object at an address. -/
def Machine.live (m : Machine) (i : Nat) : Option Obj :=
  (m.objs[i]?).join

/-- The statement `T fresh(std::move(objs[src]));`: the new object has the class of the
source and takes the next address. -/
def move_construct (p : Platform) (m : Machine) (src : Nat) : Machine :=
  match m.live src with
  | some o =>
    let r := ctor_raw o.cls p o._handle
    { m with objs := m.objs.set src (some ⟨o.cls, r.2⟩) ++ [some ⟨o.cls, r.1⟩] }
  | none => m

/-- The statement `objs[dst] = std::move(objs[src]);`, that is `operator=(T&&)` with
`this = &objs[dst]` and `other = objs[src]`. Both objects have the same class `T`: an
assignment between the two classes does not compile, and is skipped. -/
def operator_assign (p : Platform) (os : OS) (m : Machine) (dst src : Nat) : Machine :=
  match m.live dst, m.live src with
  | some a, some b =>
    if a.cls = b.cls ∧ dst ≠ src then
      let r := assign_raw a.cls p os a._handle b._handle m.world
      { objs := (m.objs.set src (some ⟨b.cls, r.2.1⟩)).set dst (some ⟨a.cls, r.1⟩),
        world := r.2.2 }
    else m
  | _, _ => m

/-- The statement `objs[i].close_handle();`. -/
def close_at (p : Platform) (os : OS) (m : Machine) (i : Nat) : Machine :=
  match m.live i with
  | some o =>
    let r := close_raw o.cls p os o._handle m.world
    { objs := m.objs.set i (some ⟨o.cls, r.1⟩), world := r.2 }
  | none => m

/-- The end of the lifetime of `objs[i]`: the destructor runs and the object is gone. -/
def destroy (p : Platform) (os : OS) (m : Machine) (i : Nat) : Machine :=
  match m.live i with
  | some o => { objs := m.objs.set i none, world := dtor_raw o.cls p os o._handle m.world }
  | none => m

/-- The statements a program can run on the objects of a store. -/
inductive Op where
  | move_construct (src : Nat)
  | move_assign (dst src : Nat)
  | close_handle (i : Nat)
  | destroy (i : Nat)
  deriving DecidableEq, Repr

/-- Run one statement. A statement that names an address without a live object is not a
program of the language (the object does not exist) and leaves the machine as it is. -/
def step (p : Platform) (os : OS) (m : Machine) : Op → Machine
  | .move_construct src => move_construct p m src
  | .move_assign dst src => operator_assign p os m dst src
  | .close_handle i => close_at p os m i
  | .destroy i => destroy p os m i

/-- Run a sequence of statements, first to last. -/
def run (p : Platform) (os : OS) (m : Machine) : List Op → Machine
  | [] => m
  | op :: ops => run p os (step p os m op) ops

/-- The raw value a slot holds as valid, if any. -/
def slot_valid (p : Platform) : Option Obj → Option NativeSocketType
  | some o => if valid_raw o.cls p o._handle then some o._handle else none
  | none => none

/-- The valid raw values held by the live objects of a store, with repetitions. -/
def valid_raws (p : Platform) (objs : List (Option Obj)) : List NativeSocketType :=
  objs.filterMap (slot_valid p)

/-- The raw value a native call closes, if it is the platform close. -/
def closed_raw : Syscall → Option NativeSocketType
  | .close s => some s
  | _ => none

/-- The raw values on which the platform close was issued, in order, with repetitions. -/
def closed_raws (t : List Syscall) : List NativeSocketType :=
  t.filterMap closed_raw

/-- Ownership invariant of a store, relative to the raw values `closed0` closed before the
program started: the valid raw values of the live objects are pairwise distinct, none of
them has been closed, and the raw values closed since the start are pairwise distinct and
were not closed before. -/
def Owned (p : Platform) (closed0 : List NativeSocketType) (m : Machine) : Prop :=
  (valid_raws p m.objs).Nodup ∧
  (∀ v ∈ valid_raws p m.objs, v ∉ closed_raws m.world.trace) ∧
  ∃ later, closed_raws m.world.trace = closed0 ++ later ∧ later.Nodup ∧
    ∀ v ∈ later, v ∉ closed0

/-- A sample store: three `SocketHandle` objects holding 3, 4 and the Linux sentinel, and two
`SocketFD` objects holding 8 and 9. -/
def sample_store : Machine :=
  ⟨[some ⟨.SocketHandle, 3⟩, some ⟨.SocketHandle, 4⟩, some ⟨.SocketHandle, -1⟩,
    some ⟨.SocketFD, 8⟩, some ⟨.SocketFD, 9⟩], ⟨[], []⟩⟩

/-- A sample program: a self-assignment, a move construction, an assignment that closes its
destination, repeated closes, two destructions, an assignment between invalid objects, and
the same on the `SocketFD` objects. -/
def sample_program : List Op :=
  [.move_assign 0 0, .move_construct 0, .move_assign 1 5, .close_handle 5, .close_handle 5,
   .destroy 5, .destroy 1, .move_assign 2 0, .move_assign 3 4, .move_assign 0 3, .destroy 3]

/-! ## Socket

`Socket::Socket()` (src/net/src/Socket.cpp) does all its work inside one `try` block whose
`catch (std::runtime_error&)` is in the constructor itself. -/

/-- Header constant `AF_INET`. -/
def AF_INET : Int := 2

/-- Header macro `LOBYTE` (windows.h), on a 16-bit word. -/
def LOBYTE (w : Nat) : Nat := w % 256

/-- Header macro `HIBYTE` (windows.h), on a 16-bit word. -/
def HIBYTE (w : Nat) : Nat := w / 256 % 256

/-- Modelled from the spec: the name `INVALID_SOCKET` as `Socket::Socket()` uses it. On
Windows it is the Winsock constant that `SocketHandle.hpp` takes as `kInvalid`; in the Linux
branch no included header defines it, and the spec gives `-1` as the invalid value of the
signed-integer family, which is `kInvalid` there too. -/
def INVALID_SOCKET (p : Platform) : NativeSocketType := kInvalid p

/-- Modelled from the spec: the nested type `Socket::FD`, declared in Socket.hpp (`struct FD;`)
and defined nowhere in the sources. The spec's resource owns exactly one raw OS socket
identifier; the constructor assigns `_fd` the value `socket` returns and compares it with
`INVALID_SOCKET`, so an `FD` is that raw value. -/
structure Socket.FD where
  raw : NativeSocketType
  deriving DecidableEq, Repr

/-- The class `Socket`: its only data member is `_fd`. -/
structure Socket where
  _fd : Socket.FD
  deriving DecidableEq, Repr

/-- The exception type `std::runtime_error`: its `what()` text. -/
structure RuntimeError where
  what : String
  deriving DecidableEq, Repr

/-- The statement `std::cerr << line << std::endl;`. -/
def write_cerr (line : String) (w : World) : World :=
  { w with cerr := w.cerr ++ [line] }

/-- The `try` block of `Socket::Socket()`: whether it was left by a `throw`, the value of
`_fd` at that point and the world. `wVersion` is what `WSAStartup` stored in
`wsaData.wVersion`, `fd0` the value of `_fd` before the body runs. The Linux branch reads the
last error through the name `WSAGetLastError`; the thread's last error code stands for it. -/
def Socket.try_block (p : Platform) (os : OS) (wVersion : Nat) (fd0 : Socket.FD) (w : World) :
    Except RuntimeError Unit × Socket.FD × World :=
  match p with
  | .win32 =>
    let result := sys os (.WSAStartup 2 2) w
    if result.1 ≠ 0 then
      let w1 := write_cerr ("WSAStartup failed with error: " ++ toString result.1) result.2
      (.error ⟨"WSAStartup failed with error"⟩, fd0, w1)
    else if LOBYTE wVersion ≠ 2 ∨ HIBYTE wVersion ≠ 2 then
      let w1 := write_cerr
        "WSAStartup failed with error：Could not find a usable version of Winsock.dll." result.2
      let w2 := (sys os .WSACleanup w1).2
      (.error ⟨"WSAStartup failed with error：Could not find a usable version of Winsock.dll."⟩,
        fd0, w2)
    else
      let sock := sys os (.socket AF_INET SOCK_STREAM 0) result.2
      if sock.1 = INVALID_SOCKET .win32 then
        let w1 := write_cerr
          ("Socket failed with error: " ++ toString (os.last_error sock.2.trace)) sock.2
        let w2 := (sys os .WSACleanup w1).2
        (.error ⟨"Socket failed with error"⟩, ⟨sock.1⟩, w2)
      else
        let result := sys os (.setsockopt_reuseaddr sock.1 1) sock.2
        if result.1 ≠ 0 then
          let w1 := write_cerr ("setsockopt failed with error: " ++ toString result.1) result.2
          let w2 := (sys os .WSACleanup w1).2
          (.error ⟨"setsockopt failed with error"⟩, ⟨sock.1⟩, w2)
        else (.ok (), ⟨sock.1⟩, result.2)
  | .linux =>
    let sock := sys os (.socket AF_INET SOCK_STREAM 0) w
    if sock.1 = INVALID_SOCKET .linux then
      let w1 := write_cerr
        ("Socket failed with error: " ++ toString (os.last_error sock.2.trace)) sock.2
      (.error ⟨"Socket failed with error"⟩, ⟨sock.1⟩, w1)
    else
      let result := sys os (.setsockopt_reuseaddr sock.1 1) sock.2
      if result.1 ≠ 0 then
        let w1 := write_cerr ("setsockopt failed with error: " ++ toString result.1) result.2
        let w2 := (sys os (.close sock.1) w1).2
        (.error ⟨"setsockopt failed with error"⟩, ⟨sock.1⟩, w2)
      else (.ok (), ⟨sock.1⟩, result.2)

/-- The constructor `Socket::Socket()`: the `try` block, and the handler
`catch (std::runtime_error& e)`, which writes `e.what()` to `std::cerr` and lets the
constructor return. The result says whether the caller sees an exception. -/
def Socket.default_ctor (p : Platform) (os : OS) (wVersion : Nat) (fd0 : Socket.FD)
    (w : World) : Except RuntimeError Socket × World :=
  match Socket.try_block p os wVersion fd0 w with
  | (.ok _, fd, w1) => (.ok ⟨fd⟩, w1)
  | (.error e, fd, w1) => (.ok ⟨fd⟩, write_cerr e.what w1)

/-- An operating system on which `socket` gives descriptor 3 and every other call fails
with `-1`, last error `98`. -/
def os_no_reuse : OS :=
  ⟨fun _ c => match c with
    | .socket _ _ _ => 3
    | _ => -1,
   fun _ => 98⟩

/-- An operating system on which `socket` gives `INVALID_SOCKET` of Windows and every other
call succeeds with `0`, last error `10024` (`WSAEMFILE`). -/
def os_win_no_socket : OS :=
  ⟨fun _ c => match c with
    | .socket _ _ _ => 18446744073709551615
    | _ => 0,
   fun _ => 10024⟩

/-- An operating system whose every call succeeds with `0`. -/
def os_ok : OS := ⟨fun _ _ => 0, fun _ => 0⟩

/-- An operating system whose every call fails with `-1`, last error `9` (`EBADF`). -/
def os_fail : OS := ⟨fun _ _ => -1, fun _ => 9⟩

/-- The world before any call. -/
def World.init : World := ⟨[], []⟩

/-! ## Facts about `close_handle` shared by the results below -/

theorem closed_raws_append (a b : List Syscall) :
    closed_raws (a ++ b) = closed_raws a ++ closed_raws b := by
  simp [closed_raws]

theorem sh_close_invalid (p : Platform) (os : OS) (w : World) :
    SocketHandle.close_handle p os ⟨kInvalid p⟩ w = (⟨kInvalid p⟩, w) := by
  simp [SocketHandle.close_handle, SocketHandle.is_valid_handle, SocketHandle.to_bool]

theorem fd_close_invalid (p : Platform) (os : OS) (w : World) :
    SocketFD.close_handle p os ⟨kInvalid p⟩ w = (⟨kInvalid p⟩, w) := by
  simp [SocketFD.close_handle, SocketFD.is_valid_handle, SocketFD.to_bool]

theorem sh_close_fst (p : Platform) (os : OS) (h : SocketHandle) (w : World) :
    (SocketHandle.close_handle p os h w).1 = ⟨kInvalid p⟩ := by
  obtain ⟨v⟩ := h
  by_cases hv : v = kInvalid p
  · subst hv; rw [sh_close_invalid]
  · simp [SocketHandle.close_handle, SocketHandle.is_valid_handle, SocketHandle.to_bool, hv]

theorem fd_close_fst (p : Platform) (os : OS) (h : SocketFD) (w : World) :
    (SocketFD.close_handle p os h w).1 = ⟨kInvalid p⟩ := by
  obtain ⟨v⟩ := h
  by_cases hv : v = kInvalid p
  · subst hv; rw [fd_close_invalid]
  · simp [SocketFD.close_handle, SocketFD.is_valid_handle, SocketFD.to_bool, hv]

theorem sh_close_trace_win32 (os : OS) (v : NativeSocketType) (w : World)
    (hv : v ≠ kInvalid .win32) :
    (SocketHandle.close_handle .win32 os ⟨v⟩ w).2.trace =
      w.trace ++ [.setsockopt_linger v 1 1, .shutdown v SD_BOTH, .ioctlsocket_fionbio v 1,
        .close v] := by
  simp [SocketHandle.close_handle, SocketHandle.is_valid_handle, SocketHandle.to_bool, hv,
    sys, apply_ite]

theorem sh_close_trace_linux (os : OS) (v : NativeSocketType) (w : World)
    (hv : v ≠ kInvalid .linux) :
    (SocketHandle.close_handle .linux os ⟨v⟩ w).2.trace =
      w.trace ++ [.setsockopt_linger v 1 1, .shutdown v SHUT_RDWR, .fcntl_getfl v,
        .fcntl_setfl v
          (Int.lor (os.ret (w.trace ++ [.setsockopt_linger v 1 1, .shutdown v SHUT_RDWR])
            (.fcntl_getfl v)) O_NONBLOCK),
        .close v] := by
  simp [SocketHandle.close_handle, SocketHandle.is_valid_handle, SocketHandle.to_bool, hv,
    sys, apply_ite]

theorem fd_close_trace (p : Platform) (os : OS) (v : NativeSocketType)
    (w : World) (hv : v ≠ kInvalid p) :
    (SocketFD.close_handle p os ⟨v⟩ w).2.trace = w.trace ++ [.close v] := by
  simp [SocketFD.close_handle, SocketFD.is_valid_handle, SocketFD.to_bool, hv, sys]

theorem valid_raw_eq (c : HandleClass) (p : Platform) (v : NativeSocketType) :
    valid_raw c p v = (v != kInvalid p) := by
  cases c <;> rfl

theorem slot_valid_some (p : Platform) (o : Obj) :
    slot_valid p (some o) = if o._handle = kInvalid p then none else some o._handle := by
  by_cases h : o._handle = kInvalid p <;> simp [slot_valid, valid_raw_eq, h]

theorem slot_valid_invalid (p : Platform) (c : HandleClass) :
    (slot_valid p (some ⟨c, kInvalid p⟩)).toList = [] := by
  simp [slot_valid_some]

theorem slot_valid_class (p : Platform) (c c2 : HandleClass) (v : NativeSocketType) :
    slot_valid p (some ⟨c, v⟩) = slot_valid p (some ⟨c2, v⟩) := by
  simp [slot_valid_some]

/-- Closing through either class appends calls to the trace, among them the platform close
on the raw value exactly when it was valid. -/
theorem close_raw_trace (c : HandleClass) (p : Platform) (os : OS) (v : NativeSocketType)
    (w : World) :
    ∃ issued, (close_raw c p os v w).2.trace = w.trace ++ issued ∧
      closed_raws issued = if v = kInvalid p then [] else [v] := by
  by_cases hv : v = kInvalid p
  · subst hv
    refine ⟨[], ?_, ?_⟩
    · cases c <;> simp [close_raw, sh_close_invalid, fd_close_invalid]
    · simp [closed_raws]
  · cases c
    · cases p
      · exact ⟨_, by simp only [close_raw]; exact sh_close_trace_win32 os v w hv,
          by simp [closed_raws, closed_raw, hv]⟩
      · exact ⟨_, by simp only [close_raw]; exact sh_close_trace_linux os v w hv,
          by simp [closed_raws, closed_raw, hv]⟩
    · exact ⟨_, by simp only [close_raw]; exact fd_close_trace p os v w hv,
        by simp [closed_raws, closed_raw, hv]⟩

theorem close_raw_trace_slot (p : Platform) (os : OS) (o : Obj) (w : World) :
    ∃ issued, (close_raw o.cls p os o._handle w).2.trace = w.trace ++ issued ∧
      closed_raws issued = (slot_valid p (some o)).toList := by
  obtain ⟨issued, h1, h2⟩ := close_raw_trace o.cls p os o._handle w
  refine ⟨issued, h1, ?_⟩
  rw [h2, slot_valid_some]
  by_cases hv : o._handle = kInvalid p <;> simp [hv]

theorem close_raw_fst (c : HandleClass) (p : Platform) (os : OS) (v : NativeSocketType)
    (w : World) : (close_raw c p os v w).1 = kInvalid p := by
  cases c <;> simp [close_raw, sh_close_fst, fd_close_fst]

theorem assign_raw_eq (c : HandleClass) (p : Platform) (os : OS) (d s : NativeSocketType)
    (w : World) : assign_raw c p os d s w = (s, kInvalid p, (close_raw c p os d w).2) := by
  cases c <;> rfl

theorem ctor_raw_eq (c : HandleClass) (p : Platform) (s : NativeSocketType) :
    ctor_raw c p s = (s, kInvalid p) := by
  cases c <;> rfl

theorem dtor_raw_eq (c : HandleClass) (p : Platform) (os : OS) (v : NativeSocketType)
    (w : World) : dtor_raw c p os v w = (close_raw c p os v w).2 := by
  cases c <;> rfl

theorem live_lt {m : Machine} {i : Nat} {o : Obj} (h : m.live i = some o) :
    i < m.objs.length ∧ m.objs[i]? = some (some o) := by
  unfold Machine.live at h
  cases hi : m.objs[i]? with
  | none => simp [hi] at h
  | some x =>
    rw [hi] at h
    have hlt : i < m.objs.length := by
      by_contra hcon
      rw [List.getElem?_eq_none (by omega)] at hi
      exact Option.noConfusion hi
    cases x with
    | none => simp at h
    | some y => simp at h; subst h; exact ⟨hlt, rfl⟩

theorem move_construct_eq (p : Platform) (m : Machine) (src : Nat) (o : Obj)
    (hs : m.live src = some o) :
    move_construct p m src =
      ⟨m.objs.set src (some ⟨o.cls, kInvalid p⟩) ++ [some ⟨o.cls, o._handle⟩], m.world⟩ := by
  simp only [move_construct, hs, ctor_raw_eq]

theorem operator_assign_eq (p : Platform) (os : OS) (m : Machine) (dst src : Nat) (a b : Obj)
    (hd : m.live dst = some a) (hs : m.live src = some b) (hc : a.cls = b.cls)
    (hne : dst ≠ src) :
    operator_assign p os m dst src =
      ⟨(m.objs.set src (some ⟨b.cls, kInvalid p⟩)).set dst (some ⟨a.cls, b._handle⟩),
        (close_raw a.cls p os a._handle m.world).2⟩ := by
  simp only [operator_assign, hd, hs, assign_raw_eq, if_pos (And.intro hc hne)]

theorem operator_assign_self (p : Platform) (os : OS) (m : Machine) (i : Nat) :
    operator_assign p os m i i = m := by
  unfold operator_assign
  split <;> simp

theorem operator_assign_mixed (p : Platform) (os : OS) (m : Machine) (dst src : Nat)
    (a b : Obj) (hd : m.live dst = some a) (hs : m.live src = some b) (hc : a.cls ≠ b.cls) :
    operator_assign p os m dst src = m := by
  simp [operator_assign, hd, hs, hc]

theorem close_at_eq (p : Platform) (os : OS) (m : Machine) (i : Nat) (o : Obj)
    (hi : m.live i = some o) :
    close_at p os m i =
      ⟨m.objs.set i (some ⟨o.cls, kInvalid p⟩), (close_raw o.cls p os o._handle m.world).2⟩ := by
  simp only [close_at, hi, close_raw_fst]

theorem destroy_eq (p : Platform) (os : OS) (m : Machine) (i : Nat) (o : Obj)
    (hi : m.live i = some o) :
    destroy p os m i = ⟨m.objs.set i none, (close_raw o.cls p os o._handle m.world).2⟩ := by
  simp only [destroy, hi, dtor_raw_eq]

/-! ## The ownership invariant is preserved by every statement -/

theorem slot_valid_nodup (p : Platform) (x : Option Obj) :
    (slot_valid p x).toList.Nodup := by
  cases h : slot_valid p x <;> simp

theorem valid_raws_cons (p : Platform) (x : Option Obj) (l : List (Option Obj)) :
    valid_raws p (x :: l) = (slot_valid p x).toList ++ valid_raws p l := by
  unfold valid_raws
  cases h : slot_valid p x <;> simp [List.filterMap_cons, h]

theorem valid_raws_append (p : Platform) (a b : List (Option Obj)) :
    valid_raws p (a ++ b) = valid_raws p a ++ valid_raws p b := by
  simp [valid_raws]

/-- Overwriting slot `i` replaces its contribution to the valid raw values. -/
theorem valid_raws_set (p : Platform) (x : Option Obj) :
    ∀ (l : List (Option Obj)) (i : Nat), i < l.length →
      (valid_raws p (l.set i x)).Perm ((slot_valid p x).toList ++ valid_raws p (l.eraseIdx i))
  | [], i, h => by simp at h
  | y :: l, 0, _ => by
    simp only [List.set_cons_zero, List.eraseIdx_cons_zero, valid_raws_cons]
    exact List.Perm.refl _
  | y :: l, i + 1, h => by
    simp only [List.set_cons_succ, List.eraseIdx_cons_succ, valid_raws_cons]
    have ih := valid_raws_set p x l i (by simpa using h)
    exact (List.Perm.append_left _ ih).trans (List.perm_append_comm_assoc _ _ _)

/-- The contribution of slot `i` can be split off the valid raw values. -/
theorem valid_raws_split (p : Platform) (y : Option Obj) :
    ∀ (l : List (Option Obj)) (i : Nat), l[i]? = some y →
      (valid_raws p l).Perm ((slot_valid p y).toList ++ valid_raws p (l.eraseIdx i))
  | [], i, h => by simp at h
  | z :: l, 0, h => by
    simp only [List.getElem?_cons_zero, Option.some.injEq] at h
    subst h
    simp only [List.eraseIdx_cons_zero, valid_raws_cons]
    exact List.Perm.refl _
  | z :: l, i + 1, h => by
    simp only [List.getElem?_cons_succ] at h
    simp only [List.eraseIdx_cons_succ, valid_raws_cons]
    have ih := valid_raws_split p y l i h
    exact (List.Perm.append_left _ ih).trans (List.perm_append_comm_assoc _ _ _)

/-- The invariant on plain lists: `A` the valid raw values, `C` the closed ones. -/
theorem owned_lists_close {C0 A C sv R : List NativeSocketType}
    (hA : A.Perm (sv ++ R)) (hsv : sv.Nodup)
    (h1 : A.Nodup) (h2 : ∀ v ∈ A, v ∉ C)
    (h3 : ∃ later, C = C0 ++ later ∧ later.Nodup ∧ ∀ v ∈ later, v ∉ C0) :
    R.Nodup ∧ (∀ v ∈ R, v ∉ C ++ sv) ∧
      ∃ later, C ++ sv = C0 ++ later ∧ later.Nodup ∧ ∀ v ∈ later, v ∉ C0 := by
  have hnd : (sv ++ R).Nodup := hA.nodup_iff.mp h1
  have hsvA : ∀ v ∈ sv, v ∈ A := fun v hv => hA.mem_iff.mpr (List.mem_append_left _ hv)
  have hRA : ∀ v ∈ R, v ∈ A := fun v hv => hA.mem_iff.mpr (List.mem_append_right _ hv)
  obtain ⟨later, hC, hl, hd⟩ := h3
  refine ⟨(List.nodup_append.mp hnd).2.1, ?_, later ++ sv, ?_, ?_, ?_⟩
  · intro v hv hmem
    rcases List.mem_append.mp hmem with hc | hs
    · exact h2 v (hRA v hv) hc
    · exact (List.nodup_append.mp hnd).2.2 hs hv
  · rw [hC, List.append_assoc]
  · refine List.nodup_append.mpr ⟨hl, hsv, ?_⟩
    intro v hvl hvs
    exact h2 v (hsvA v hvs) (by rw [hC]; exact List.mem_append_right _ hvl)
  · intro v hv
    rcases List.mem_append.mp hv with hvl | hvs
    · exact hd v hvl
    · intro hc0
      exact h2 v (hsvA v hvs) (by rw [hC]; exact List.mem_append_left _ hc0)

/-- Closing the object `o` of some slot, with the store afterwards holding (up to order)
what the other slots held: the invariant is kept. -/
theorem owned_after_close (p : Platform) (os : OS)
    (closed0 : List NativeSocketType) (m : Machine) (o : Obj)
    (objs : List (Option Obj)) (R : List NativeSocketType)
    (hold : (valid_raws p m.objs).Perm ((slot_valid p (some o)).toList ++ R))
    (hnew : (valid_raws p objs).Perm R)
    (h : Owned p closed0 m) :
    Owned p closed0 ⟨objs, (close_raw o.cls p os o._handle m.world).2⟩ := by
  obtain ⟨issued, htr, hcl⟩ := close_raw_trace_slot p os o m.world
  obtain ⟨h1, h2, h3⟩ := h
  have key := owned_lists_close hold (slot_valid_nodup p (some o)) h1 h2 h3
  obtain ⟨k1, k2, k3⟩ := key
  have hc : closed_raws (close_raw o.cls p os o._handle m.world).2.trace
      = closed_raws m.world.trace ++ (slot_valid p (some o)).toList := by
    rw [htr, closed_raws_append, hcl]
  refine ⟨hnew.nodup_iff.mpr k1, ?_, ?_⟩
  · intro x hx
    simp only [hc]
    exact k2 x (hnew.mem_iff.mp hx)
  · simp only [hc]
    exact k3

theorem owned_step (p : Platform) (os : OS)
    (closed0 : List NativeSocketType) (m : Machine) (op : Op) (h : Owned p closed0 m) :
    Owned p closed0 (step p os m op) := by
  cases op with
  | move_construct src =>
    simp only [step]
    cases hs : m.live src with
    | none => simpa [move_construct, hs] using h
    | some s =>
      rw [move_construct_eq p m src s hs]
      obtain ⟨hlt, hget⟩ := live_lt hs
      obtain ⟨h1, h2, h3⟩ := h
      have hold := valid_raws_split p (some s) m.objs src hget
      have hnew : (valid_raws p (m.objs.set src (some ⟨s.cls, kInvalid p⟩) ++
          [some ⟨s.cls, s._handle⟩])).Perm (valid_raws p m.objs) := by
        rw [valid_raws_append]
        have e := valid_raws_set p (some ⟨s.cls, kInvalid p⟩) m.objs src hlt
        rw [slot_valid_invalid, List.nil_append] at e
        have e1 : valid_raws p [some ⟨s.cls, s._handle⟩] = (slot_valid p (some s)).toList := by
          rw [valid_raws_cons]; simp [valid_raws]
        rw [e1]
        exact ((List.Perm.append_right _ e).trans List.perm_append_comm).trans hold.symm
      exact ⟨hnew.nodup_iff.mpr h1, fun x hx => h2 x (hnew.mem_iff.mp hx), h3⟩
  | move_assign dst src =>
    simp only [step]
    by_cases hne : dst = src
    · subst hne; rw [operator_assign_self]; exact h
    · cases hd : m.live dst with
      | none => simpa [operator_assign, hd] using h
      | some d =>
        cases hs : m.live src with
        | none => simpa [operator_assign, hd, hs] using h
        | some s =>
          by_cases hc : d.cls = s.cls
          · rw [operator_assign_eq p os m dst src d s hd hs hc hne]
            obtain ⟨hdl, hdget⟩ := live_lt hd
            obtain ⟨hsl, hsget⟩ := live_lt hs
            have hsplit_s := valid_raws_split p (some s) m.objs src hsget
            have hset_s := valid_raws_set p (some ⟨s.cls, kInvalid p⟩) m.objs src hsl
            rw [slot_valid_invalid, List.nil_append] at hset_s
            have hdget1 : (m.objs.set src (some ⟨s.cls, kInvalid p⟩))[dst]? = some (some d) := by
              rw [List.getElem?_set_ne (Ne.symm hne)]; exact hdget
            have hsplit_d := valid_raws_split p (some d) _ dst hdget1
            have hset_d := valid_raws_set p (some ⟨d.cls, s._handle⟩)
              (m.objs.set src (some ⟨s.cls, kInvalid p⟩)) dst (by simpa using hdl)
            rw [slot_valid_class p d.cls s.cls s._handle] at hset_d
            refine owned_after_close p os closed0 m d _
              ((slot_valid p (some s)).toList ++
                valid_raws p ((m.objs.set src (some ⟨s.cls, kInvalid p⟩)).eraseIdx dst))
              ?_ hset_d h
            refine hsplit_s.trans ?_
            refine (List.Perm.append_left _ (hset_s.symm.trans hsplit_d)).trans ?_
            exact List.perm_append_comm_assoc _ _ _
          · rw [operator_assign_mixed p os m dst src d s hd hs hc]; exact h
  | close_handle i =>
    simp only [step]
    cases hi : m.live i with
    | none => simpa [close_at, hi] using h
    | some v =>
      rw [close_at_eq p os m i v hi]
      obtain ⟨hlt, hget⟩ := live_lt hi
      have hset := valid_raws_set p (some ⟨v.cls, kInvalid p⟩) m.objs i hlt
      rw [slot_valid_invalid, List.nil_append] at hset
      exact owned_after_close p os closed0 m v _ _
        (valid_raws_split p (some v) m.objs i hget) hset h
  | destroy i =>
    simp only [step]
    cases hi : m.live i with
    | none => simpa [destroy, hi] using h
    | some v =>
      rw [destroy_eq p os m i v hi]
      obtain ⟨hlt, hget⟩ := live_lt hi
      have hset := valid_raws_set p none m.objs i hlt
      have e0 : (slot_valid p none).toList = [] := by simp [slot_valid]
      rw [e0, List.nil_append] at hset
      exact owned_after_close p os closed0 m v _ _
        (valid_raws_split p (some v) m.objs i hget) hset h

theorem owned_run (p : Platform) (os : OS) (closed0 : List NativeSocketType) (ops : List Op) :
    ∀ m : Machine, Owned p closed0 m → Owned p closed0 (run p os m ops) := by
  induction ops with
  | nil => intro m h; exact h
  | cons op ops ih => intro m h; exact ih _ (owned_step p os closed0 m op h)

theorem step_trace (p : Platform) (os : OS) (m : Machine) (op : Op) :
    ∃ issued, (step p os m op).world.trace = m.world.trace ++ issued := by
  cases op with
  | move_construct src =>
    refine ⟨[], ?_⟩
    simp only [step, move_construct]
    split <;> simp
  | move_assign dst src =>
    simp only [step, operator_assign]
    split
    · split
      · simp only [assign_raw_eq]
        obtain ⟨issued, h, -⟩ := close_raw_trace _ p os _ m.world
        exact ⟨issued, h⟩
      · exact ⟨[], by simp⟩
    · exact ⟨[], by simp⟩
  | close_handle i =>
    simp only [step, close_at]
    split
    · obtain ⟨issued, h, -⟩ := close_raw_trace _ p os _ m.world
      exact ⟨issued, h⟩
    · exact ⟨[], by simp⟩
  | destroy i =>
    simp only [step, destroy]
    split
    · simp only [dtor_raw_eq]
      obtain ⟨issued, h, -⟩ := close_raw_trace _ p os _ m.world
      exact ⟨issued, h⟩
    · exact ⟨[], by simp⟩

theorem run_trace (p : Platform) (os : OS) (ops : List Op) :
    ∀ m : Machine, ∃ issued, (run p os m ops).world.trace = m.world.trace ++ issued := by
  induction ops with
  | nil => intro m; exact ⟨[], by simp [run]⟩
  | cons op ops ih =>
    intro m
    obtain ⟨i1, h1⟩ := step_trace p os m op
    obtain ⟨i2, h2⟩ := ih (step p os m op)
    exact ⟨i1 ++ i2, by simp only [run]; rw [h2, h1, List.append_assoc]⟩

/-! ## Results -/

/-- C1: moving transfers the raw value and resets the source. For a source holding raw value
`v`, the move constructor of either class gives a new object with `native_handle() == v` and
leaves the source with `native_handle() == kInvalid`, on which `is_valid_handle()` is false;
and the assignment `objs[dst] = std::move(objs[src])` to a distinct object of the same
class `c` leaves `v` in the destination and `kInvalid` in the source. -/
theorem move_transfers_raw_value (c : HandleClass) (p : Platform) (os : OS) (m : Machine)
    (dst src : Nat) (d v : NativeSocketType)
    (hd : m.live dst = some ⟨c, d⟩) (hs : m.live src = some ⟨c, v⟩) (hne : dst ≠ src) :
    ((SocketHandle.move_ctor p ⟨v⟩).1.native_handle = v ∧
      (SocketHandle.move_ctor p ⟨v⟩).2.native_handle = kInvalid p ∧
      (SocketHandle.move_ctor p ⟨v⟩).2.is_valid_handle p = false) ∧
    ((SocketFD.move_ctor p ⟨v⟩).1.native_handle = v ∧
      (SocketFD.move_ctor p ⟨v⟩).2.native_handle = kInvalid p ∧
      (SocketFD.move_ctor p ⟨v⟩).2.is_valid_handle p = false) ∧
    ((move_construct p m src).live m.objs.length = some ⟨c, v⟩ ∧
      (move_construct p m src).live src = some ⟨c, kInvalid p⟩) ∧
    ((operator_assign p os m dst src).live dst = some ⟨c, v⟩ ∧
      (operator_assign p os m dst src).live src = some ⟨c, kInvalid p⟩ ∧
      valid_raw c p (kInvalid p) = false) := by
  obtain ⟨hdl, -⟩ := live_lt hd
  obtain ⟨hsl, -⟩ := live_lt hs
  refine ⟨?_, ?_, ?_, ?_⟩
  · simp [SocketHandle.move_ctor, SocketHandle.native_handle, SocketHandle.is_valid_handle,
      SocketHandle.to_bool]
  · simp [SocketFD.move_ctor, SocketFD.native_handle, SocketFD.is_valid_handle,
      SocketFD.to_bool]
  · rw [move_construct_eq p m src _ hs]
    simp only [Machine.live]
    constructor
    · rw [List.getElem?_append_right (by simp)]
      simp
    · rw [List.getElem?_append_left (by simpa using hsl)]
      simp [hsl]
  · rw [operator_assign_eq p os m dst src _ _ hd hs rfl hne]
    simp only [Machine.live]
    refine ⟨?_, ?_, ?_⟩
    · simp [hdl]
    · rw [List.getElem?_set_ne hne]
      simp [hsl]
    · simp [valid_raw_eq]

/-- Witness for C1: two `SocketHandle` objects on Linux holding 7 and 5, and the statement
`objs[0] = std::move(objs[1])`. -/
theorem move_transfers_raw_value_witness :
    ((⟨[some ⟨.SocketHandle, 7⟩, some ⟨.SocketHandle, 5⟩], World.init⟩ : Machine).live 0
        = some ⟨.SocketHandle, 7⟩ ∧
      (⟨[some ⟨.SocketHandle, 7⟩, some ⟨.SocketHandle, 5⟩], World.init⟩ : Machine).live 1
        = some ⟨.SocketHandle, 5⟩ ∧ (0 : Nat) ≠ 1) ∧
    (operator_assign .linux os_ok
        ⟨[some ⟨.SocketHandle, 7⟩, some ⟨.SocketHandle, 5⟩], World.init⟩ 0 1).live 0
      = some ⟨.SocketHandle, 5⟩ ∧
    (operator_assign .linux os_ok
        ⟨[some ⟨.SocketHandle, 7⟩, some ⟨.SocketHandle, 5⟩], World.init⟩ 0 1).live 1
      = some ⟨.SocketHandle, kInvalid .linux⟩ :=
  ⟨⟨by decide, by decide, by decide⟩,
    (move_transfers_raw_value .SocketHandle .linux os_ok
      ⟨[some ⟨.SocketHandle, 7⟩, some ⟨.SocketHandle, 5⟩], World.init⟩ 0 1 7 5
      (by decide) (by decide) (by decide)).2.2.2.1,
    (move_transfers_raw_value .SocketHandle .linux os_ok
      ⟨[some ⟨.SocketHandle, 7⟩, some ⟨.SocketHandle, 5⟩], World.init⟩ 0 1 7 5
      (by decide) (by decide) (by decide)).2.2.2.2.1⟩

/-- C2: single ownership is an invariant of every program. Starting from a store whose valid
raw values are pairwise distinct and have not been closed, after any finite sequence of move
constructions, move assignments (self-assignment included), `close_handle` calls and
destructions the valid raw values are still pairwise distinct and not closed, and the
platform close was issued at most once per raw value, never on one closed before. -/
theorem single_owner_no_double_close (p : Platform) (os : OS) (m : Machine) (ops : List Op)
    (hdistinct : (valid_raws p m.objs).Nodup)
    (hopen : ∀ v ∈ valid_raws p m.objs, v ∉ closed_raws m.world.trace) :
    (valid_raws p (run p os m ops).objs).Nodup ∧
    (∀ v ∈ valid_raws p (run p os m ops).objs,
      v ∉ closed_raws (run p os m ops).world.trace) ∧
    ∃ issued, (run p os m ops).world.trace = m.world.trace ++ issued ∧
      (closed_raws issued).Nodup ∧
      ∀ v ∈ closed_raws issued, v ∉ closed_raws m.world.trace := by
  have h0 : Owned p (closed_raws m.world.trace) m :=
    ⟨hdistinct, hopen, [], by simp, List.nodup_nil, by simp⟩
  obtain ⟨k1, k2, later, hl, hnd, hdis⟩ := owned_run p os _ ops m h0
  obtain ⟨issued, htr⟩ := run_trace p os ops m
  refine ⟨k1, k2, issued, htr, ?_⟩
  have e : later = closed_raws issued := by
    rw [htr, closed_raws_append] at hl
    exact (List.append_cancel_left hl).symm
  subst e
  exact ⟨hnd, hdis⟩

/-- Witness for C2: the sample program on the sample store, on Linux with every native call
failing. -/
theorem single_owner_no_double_close_witness :
    (valid_raws .linux sample_store.objs).Nodup ∧
    (∀ v ∈ valid_raws .linux sample_store.objs, v ∉ closed_raws sample_store.world.trace) ∧
    (valid_raws .linux (run .linux os_fail sample_store sample_program).objs).Nodup ∧
    ∃ issued,
      (run .linux os_fail sample_store sample_program).world.trace
        = sample_store.world.trace ++ issued ∧
      (closed_raws issued).Nodup :=
  ⟨by decide, by decide,
    (single_owner_no_double_close .linux os_fail sample_store sample_program
      (by decide) (by decide)).1,
    (single_owner_no_double_close .linux os_fail sample_store sample_program
      (by decide) (by decide)).2.2.imp (fun _ h => ⟨h.1, h.2.1⟩)⟩

/-- C3: `close_handle` is idempotent in both classes. From any handle state, a second
`close_handle` (or the destructor) after a first one changes nothing: same object, same
world, so no further native call; over both calls the platform close was issued once on
the raw value if it was valid, and not at all otherwise. -/
theorem close_handle_idempotent (p : Platform) (os : OS) (h : SocketHandle) (f : SocketFD)
    (w : World) :
    ((h.close_handle p os w).1.close_handle p os (h.close_handle p os w).2
        = h.close_handle p os w ∧
      SocketHandle.dtor p os (h.close_handle p os w).1 (h.close_handle p os w).2
        = (h.close_handle p os w).2 ∧
      ∃ issued,
        ((h.close_handle p os w).1.close_handle p os (h.close_handle p os w).2).2.trace
          = w.trace ++ issued ∧
        closed_raws issued = if h.is_valid_handle p then [h._handle] else []) ∧
    ((f.close_handle p os w).1.close_handle p os (f.close_handle p os w).2
        = f.close_handle p os w ∧
      SocketFD.dtor p os (f.close_handle p os w).1 (f.close_handle p os w).2
        = (f.close_handle p os w).2 ∧
      ∃ issued,
        ((f.close_handle p os w).1.close_handle p os (f.close_handle p os w).2).2.trace
          = w.trace ++ issued ∧
        closed_raws issued = if f.is_valid_handle p then [f._handle] else []) := by
  have hh : (h.close_handle p os w).1.close_handle p os (h.close_handle p os w).2
      = h.close_handle p os w := by
    have e := sh_close_fst p os h w
    rw [e, sh_close_invalid]
    exact Prod.ext e.symm rfl
  have hf : (f.close_handle p os w).1.close_handle p os (f.close_handle p os w).2
      = f.close_handle p os w := by
    have e := fd_close_fst p os f w
    rw [e, fd_close_invalid]
    exact Prod.ext e.symm rfl
  refine ⟨⟨hh, ?_, ?_⟩, ⟨hf, ?_, ?_⟩⟩
  · simp only [SocketHandle.dtor, hh]
  · rw [hh]
    obtain ⟨issued, h1, h2⟩ := close_raw_trace .SocketHandle p os h._handle w
    refine ⟨issued, h1, ?_⟩
    rw [h2]
    by_cases hv : h._handle = kInvalid p <;>
      simp [SocketHandle.is_valid_handle, SocketHandle.to_bool, hv]
  · simp only [SocketFD.dtor, hf]
  · rw [hf]
    obtain ⟨issued, h1, h2⟩ := close_raw_trace .SocketFD p os f._handle w
    refine ⟨issued, h1, ?_⟩
    rw [h2]
    by_cases hv : f._handle = kInvalid p <;>
      simp [SocketFD.is_valid_handle, SocketFD.to_bool, hv]

/-- C4: `SocketHandle::close_handle` always succeeds from the caller's point of view. It is
a total function (no exception, no error value), and on a valid handle, whatever the native
calls return (`os`, and any other `os2`), the handle ends at `kInvalid`; the return code of
the platform close decides only whether the warning line is written to `std::cerr`, and
two systems that differ only in that return code see the same native calls. -/
theorem close_handle_always_invalidates (p : Platform) (os os2 : OS) (v : NativeSocketType)
    (w : World) (hv : v ≠ kInvalid p) :
    (SocketHandle.close_handle p os ⟨v⟩ w).1.native_handle = kInvalid p ∧
    (SocketHandle.close_handle p os ⟨v⟩ w).1.is_valid_handle p = false ∧
    (SocketHandle.close_handle p os2 ⟨v⟩ w).1 = (SocketHandle.close_handle p os ⟨v⟩ w).1 ∧
    (SocketHandle.close_handle p os ⟨v⟩ w).2.cerr =
      (if os.ret (SocketHandle.close_handle p os ⟨v⟩ w).2.trace.dropLast (.close v) = -1 then
        w.cerr ++ ["Warning: close_handle() failed: " ++ toString v]
      else w.cerr) ∧
    ((∀ t c, closed_raw c = none → os2.ret t c = os.ret t c) →
      (SocketHandle.close_handle p os2 ⟨v⟩ w).2.trace
        = (SocketHandle.close_handle p os ⟨v⟩ w).2.trace) := by
  refine ⟨?_, ?_, ?_, ?_, ?_⟩
  · simp [sh_close_fst, SocketHandle.native_handle]
  · simp [sh_close_fst, SocketHandle.is_valid_handle, SocketHandle.to_bool]
  · rw [sh_close_fst, sh_close_fst]
  · cases p
    · rw [sh_close_trace_win32 os v w hv]
      simp only [SocketHandle.close_handle, SocketHandle.is_valid_handle,
        SocketHandle.to_bool, bne_iff_ne, ne_eq, hv, not_false_eq_true, if_true, sys]
      simp [List.dropLast_append_of_ne_nil, apply_ite]
    · rw [sh_close_trace_linux os v w hv]
      simp only [SocketHandle.close_handle, SocketHandle.is_valid_handle,
        SocketHandle.to_bool, bne_iff_ne, ne_eq, hv, not_false_eq_true, if_true, sys]
      simp [List.dropLast_append_of_ne_nil, apply_ite]
  · intro hagree
    cases p
    · rw [sh_close_trace_win32 os v w hv, sh_close_trace_win32 os2 v w hv]
    · rw [sh_close_trace_linux os v w hv, sh_close_trace_linux os2 v w hv,
        hagree _ (.fcntl_getfl v) rfl]

/-- Witness for C4: handle 5 on Linux, where every native call fails. -/
theorem close_handle_always_invalidates_witness :
    (5 : NativeSocketType) ≠ kInvalid .linux ∧
    (SocketHandle.close_handle .linux os_fail ⟨5⟩ World.init).1.native_handle
      = kInvalid .linux ∧
    (SocketHandle.close_handle .linux os_fail ⟨5⟩ World.init).1.is_valid_handle .linux
      = false :=
  ⟨by decide,
    (close_handle_always_invalidates .linux os_fail os_ok 5 World.init (by decide)).1,
    (close_handle_always_invalidates .linux os_fail os_ok 5 World.init (by decide)).2.1⟩

/-- C5: the graceful close protocol. On a valid raw value `v`, `SocketHandle::close_handle`
appends to the trace exactly these calls, all on `v`, in this order, whatever each of them
returns: `setsockopt` with `SO_LINGER` on and a linger time of 1 second; `shutdown` of both
directions; the switch to non-blocking mode (`ioctlsocket(FIONBIO, 1)` on Windows; on Linux
`fcntl(F_GETFL)` followed by `fcntl(F_SETFL)` with the `O_NONBLOCK` bit, bit 11, set in
the flags just read); and then the platform close, once. -/
theorem close_handle_graceful_order (p : Platform) (os : OS) (v : NativeSocketType)
    (w : World) (hv : v ≠ kInvalid p) :
    (SocketHandle.close_handle p os ⟨v⟩ w).2.trace = w.trace ++
      (match p with
        | .win32 =>
          [.setsockopt_linger v 1 1, .shutdown v SD_BOTH, .ioctlsocket_fionbio v 1, .close v]
        | .linux =>
          [.setsockopt_linger v 1 1, .shutdown v SHUT_RDWR, .fcntl_getfl v,
           .fcntl_setfl v
             (Int.lor (os.ret (w.trace ++ [.setsockopt_linger v 1 1, .shutdown v SHUT_RDWR])
               (.fcntl_getfl v)) O_NONBLOCK),
           .close v]) ∧
    (∀ flags : Int, Int.testBit (Int.lor flags O_NONBLOCK) 11 = true) ∧
    closed_raws ((SocketHandle.close_handle p os ⟨v⟩ w).2.trace.drop w.trace.length) = [v] := by
  refine ⟨?_, ?_, ?_⟩
  · cases p
    · exact sh_close_trace_win32 os v w hv
    · exact sh_close_trace_linux os v w hv
  · intro flags
    rw [Int.testBit_lor]
    have h11 : Int.testBit O_NONBLOCK 11 = true := by decide
    rw [h11, Bool.or_true]
  · cases p
    · rw [sh_close_trace_win32 os v w hv, List.drop_left]
      simp [closed_raws, closed_raw]
    · rw [sh_close_trace_linux os v w hv, List.drop_left]
      simp [closed_raws, closed_raw]

/-- Witness for C5: handle 5 on Windows, every native call failing. -/
theorem close_handle_graceful_order_witness :
    (5 : NativeSocketType) ≠ kInvalid .win32 ∧
    (SocketHandle.close_handle .win32 os_fail ⟨5⟩ World.init).2.trace =
      [.setsockopt_linger 5 1 1, .shutdown 5 SD_BOTH, .ioctlsocket_fionbio 5 1, .close 5] :=
  ⟨by decide,
    (close_handle_graceful_order .win32 os_fail 5 World.init (by decide)).1⟩

/-- C6: `release_handle` gives up ownership without closing, in both classes. It returns the
raw value held and leaves the object at `kInvalid`; it is a function of the object alone, so
it reaches no native call; and a later `close_handle` or destructor on that object leaves
the world as it is: no call is issued, in particular no close on the released value. -/
theorem release_handle_never_closes (p : Platform) (os : OS) (v : NativeSocketType)
    (w : World) :
    ((SocketHandle.release_handle p ⟨v⟩).1 = v ∧
      (SocketHandle.release_handle p ⟨v⟩).2.native_handle = kInvalid p ∧
      (SocketHandle.release_handle p ⟨v⟩).2.close_handle p os w
        = ((SocketHandle.release_handle p ⟨v⟩).2, w) ∧
      SocketHandle.dtor p os (SocketHandle.release_handle p ⟨v⟩).2 w = w) ∧
    ((SocketFD.release_handle p ⟨v⟩).1 = v ∧
      (SocketFD.release_handle p ⟨v⟩).2.native_handle = kInvalid p ∧
      (SocketFD.release_handle p ⟨v⟩).2.close_handle p os w
        = ((SocketFD.release_handle p ⟨v⟩).2, w) ∧
      SocketFD.dtor p os (SocketFD.release_handle p ⟨v⟩).2 w = w) := by
  refine ⟨⟨rfl, rfl, ?_, ?_⟩, ⟨rfl, rfl, ?_, ?_⟩⟩
  · simp only [SocketHandle.release_handle, sh_close_invalid]
  · simp only [SocketHandle.dtor, SocketHandle.release_handle, sh_close_invalid]
  · simp only [SocketFD.release_handle, fd_close_invalid]
  · simp only [SocketFD.dtor, SocketFD.release_handle, fd_close_invalid]

/-- C7: `reset_handle(v)` closes what the object held and adopts `v`, in both classes. The
object ends with `native_handle() == v`; the calls it appends to the trace contain the
platform close on the old raw value exactly once when that value was valid, and there is no
call at all (the world is unchanged) when it was `kInvalid`; with the default argument the
object ends invalid. -/
theorem reset_handle_closes_then_adopts (p : Platform) (os : OS) (old v : NativeSocketType)
    (w : World) :
    ((SocketHandle.reset_handle p os ⟨old⟩ v w).1.native_handle = v ∧
      (∃ issued, (SocketHandle.reset_handle p os ⟨old⟩ v w).2.trace = w.trace ++ issued ∧
        closed_raws issued = if old = kInvalid p then [] else [old]) ∧
      (SocketHandle.reset_handle p os ⟨kInvalid p⟩ v w).2 = w ∧
      (SocketHandle.reset_handle_default p os ⟨old⟩ w).1.is_valid_handle p = false) ∧
    ((SocketFD.reset_handle p os ⟨old⟩ v w).1.native_handle = v ∧
      (SocketFD.reset_handle p os ⟨old⟩ v w).2.trace
        = w.trace ++ (if old = kInvalid p then [] else [.close old]) ∧
      (SocketFD.reset_handle p os ⟨kInvalid p⟩ v w).2 = w ∧
      (SocketFD.reset_handle_default p os ⟨old⟩ w).1.is_valid_handle p = false) := by
  refine ⟨⟨rfl, ?_, ?_, ?_⟩, ⟨rfl, ?_, ?_, ?_⟩⟩
  · exact close_raw_trace .SocketHandle p os old w
  · simp only [SocketHandle.reset_handle, sh_close_invalid]
  · simp [SocketHandle.reset_handle_default, SocketHandle.reset_handle,
      SocketHandle.is_valid_handle, SocketHandle.to_bool]
  · by_cases ho : old = kInvalid p
    · subst ho
      simp [SocketFD.reset_handle, fd_close_invalid]
    · simp only [SocketFD.reset_handle, fd_close_trace p os old w ho, if_neg ho]
  · simp only [SocketFD.reset_handle, fd_close_invalid]
  · simp [SocketFD.reset_handle_default, SocketFD.reset_handle,
      SocketFD.is_valid_handle, SocketFD.to_bool]

/-- C8: an invalid handle never reaches the native `bind`, `listen` or `accept`. On an
object for which `is_valid_handle()` is false, `SocketHandle::bind_handle` and
`listen_handle` throw, `SocketFD::bind_handle` and `listen_handle` return `-1`, and
`accept_handle` of both classes returns an invalid object; in all six cases the world is
the one before the call, so no native call was issued. Default-constructed, moved-from,
released and closed objects are all invalid in this sense. -/
theorem invalid_handle_makes_no_native_call (p : Platform) (os : OS) (h : SocketHandle)
    (f : SocketFD) (x : NativeSocketType) (addr addrlen backlog : Int) (w : World)
    (hh : h.is_valid_handle p = false) (hf : f.is_valid_handle p = false) :
    (h.bind_handle p os addr addrlen w
        = (.error ⟨os.last_error w.trace, "bind_handle() failed: Invalid socket "⟩, w) ∧
      h.listen_handle p os backlog w
        = (.error ⟨os.last_error w.trace, "listen_handle() failed: Invalid socket "⟩, w) ∧
      h.accept_handle p os addr addrlen w = (.ok ⟨kInvalid p⟩, w)) ∧
    (f.bind_handle p os addr addrlen w = (.ok (-1), w) ∧
      f.listen_handle p os backlog w = (.ok (-1), w) ∧
      f.accept_handle p os addr addrlen w = (.ok ⟨kInvalid p⟩, w)) ∧
    ((SocketHandle.default_ctor p).is_valid_handle p = false ∧
      (SocketHandle.move_ctor p ⟨x⟩).2.is_valid_handle p = false ∧
      (SocketHandle.release_handle p ⟨x⟩).2.is_valid_handle p = false ∧
      (SocketHandle.close_handle p os ⟨x⟩ w).1.is_valid_handle p = false) ∧
    ((SocketFD.default_ctor p).is_valid_handle p = false ∧
      (SocketFD.move_ctor p ⟨x⟩).2.is_valid_handle p = false ∧
      (SocketFD.release_handle p ⟨x⟩).2.is_valid_handle p = false ∧
      (SocketFD.close_handle p os ⟨x⟩ w).1.is_valid_handle p = false) := by
  refine ⟨⟨?_, ?_, ?_⟩, ⟨?_, ?_, ?_⟩, ⟨?_, ?_, ?_, ?_⟩, ⟨?_, ?_, ?_, ?_⟩⟩
  · simp [SocketHandle.bind_handle, hh, throw_last_error]
  · simp [SocketHandle.listen_handle, hh, throw_last_error]
  · simp [SocketHandle.accept_handle, hh, SocketHandle.from_native]
  · simp [SocketFD.bind_handle, hf]
  · simp [SocketFD.listen_handle, hf]
  · simp [SocketFD.accept_handle, hf, SocketFD.from_native]
  · simp [SocketHandle.default_ctor, SocketHandle.is_valid_handle, SocketHandle.to_bool]
  · simp [SocketHandle.move_ctor, SocketHandle.is_valid_handle, SocketHandle.to_bool]
  · simp [SocketHandle.release_handle, SocketHandle.is_valid_handle, SocketHandle.to_bool]
  · simp [sh_close_fst, SocketHandle.is_valid_handle, SocketHandle.to_bool]
  · simp [SocketFD.default_ctor, SocketFD.is_valid_handle, SocketFD.to_bool]
  · simp [SocketFD.move_ctor, SocketFD.is_valid_handle, SocketFD.to_bool]
  · simp [SocketFD.release_handle, SocketFD.is_valid_handle, SocketFD.to_bool]
  · simp [fd_close_fst, SocketFD.is_valid_handle, SocketFD.to_bool]

/-- Witness for C8: default-constructed objects of both classes on Linux. -/
theorem invalid_handle_makes_no_native_call_witness :
    (SocketHandle.default_ctor .linux).is_valid_handle .linux = false ∧
    (SocketFD.default_ctor .linux).is_valid_handle .linux = false ∧
    (SocketHandle.default_ctor .linux).bind_handle .linux os_ok 0 16 World.init
      = (.error ⟨0, "bind_handle() failed: Invalid socket "⟩, World.init) ∧
    (SocketFD.default_ctor .linux).bind_handle .linux os_ok 0 16 World.init
      = (.ok (-1), World.init) :=
  ⟨by decide, by decide,
    (invalid_handle_makes_no_native_call .linux os_ok (SocketHandle.default_ctor .linux)
      (SocketFD.default_ctor .linux) 0 0 16 10 World.init (by decide) (by decide)).1.1,
    (invalid_handle_makes_no_native_call .linux os_ok (SocketHandle.default_ctor .linux)
      (SocketFD.default_ctor .linux) 0 0 16 10 World.init (by decide) (by decide)).2.1.1⟩

/-- C9 fails as stated: `accept_handle` returns normally with an invalid object. On Linux,
with a native `accept` that fails with `-1`: called on an invalid listening object it
returns an object holding `kInvalid`, and called on the valid listening value 4 it returns
an object holding `-1`; neither call throws, and the object returned is not valid. The same
holds for `SocketFD`. -/
theorem accept_handle_returns_invalid_normally :
    (SocketHandle.accept_handle .linux os_fail ⟨kInvalid .linux⟩ 0 0 World.init).1
      = .ok ⟨kInvalid .linux⟩ ∧
    (SocketHandle.accept_handle .linux os_fail ⟨4⟩ 0 0 World.init).1 = .ok ⟨-1⟩ ∧
    SocketHandle.is_valid_handle .linux ⟨-1⟩ = false ∧
    (SocketFD.accept_handle .linux os_fail ⟨kInvalid .linux⟩ 0 0 World.init).1
      = .ok ⟨kInvalid .linux⟩ ∧
    (SocketFD.accept_handle .linux os_fail ⟨4⟩ 0 0 World.init).1 = .ok ⟨-1⟩ ∧
    SocketFD.is_valid_handle .linux ⟨-1⟩ = false :=
  ⟨rfl, rfl, rfl, rfl, rfl, rfl⟩

/-- C9 as amended: `accept_handle` reports failure through the object it returns, never by
an exception. In both classes it always returns normally; on an invalid listening object it
returns an object holding `kInvalid` and issues no call; on a valid one it issues the native
`accept` once and returns an object holding exactly what `accept` returned. The object
returned is therefore valid exactly when the listening object was valid and `accept` did
not return `kInvalid`. -/
theorem accept_handle_reports_by_value (p : Platform) (os : OS) (h : SocketHandle)
    (f : SocketFD) (addr addrlen : Int) (w : World) :
    (h.accept_handle p os addr addrlen w =
        (if h.is_valid_handle p then
          (.ok ⟨os.ret w.trace (.accept h._handle addr addrlen)⟩,
            ⟨w.trace ++ [.accept h._handle addr addrlen], w.cerr⟩)
        else (.ok ⟨kInvalid p⟩, w)) ∧
      ∃ r, (h.accept_handle p os addr addrlen w).1 = .ok r ∧
        (r.is_valid_handle p = true ↔
          (h.is_valid_handle p = true ∧
            os.ret w.trace (.accept h._handle addr addrlen) ≠ kInvalid p))) ∧
    (f.accept_handle p os addr addrlen w =
        (if f.is_valid_handle p then
          (.ok ⟨os.ret w.trace (.accept f._handle addr addrlen)⟩,
            ⟨w.trace ++ [.accept f._handle addr addrlen], w.cerr⟩)
        else (.ok ⟨kInvalid p⟩, w)) ∧
      ∃ r, (f.accept_handle p os addr addrlen w).1 = .ok r ∧
        (r.is_valid_handle p = true ↔
          (f.is_valid_handle p = true ∧
            os.ret w.trace (.accept f._handle addr addrlen) ≠ kInvalid p))) := by
  constructor
  · cases hv : h.is_valid_handle p
    · refine ⟨by simp [SocketHandle.accept_handle, hv, SocketHandle.from_native],
        ⟨kInvalid p⟩, by simp [SocketHandle.accept_handle, hv, SocketHandle.from_native], ?_⟩
      simp [SocketHandle.is_valid_handle, SocketHandle.to_bool]
    · refine ⟨by simp [SocketHandle.accept_handle, hv, SocketHandle.from_native, sys],
        ⟨os.ret w.trace (.accept h._handle addr addrlen)⟩,
        by simp [SocketHandle.accept_handle, hv, SocketHandle.from_native, sys], ?_⟩
      simp [SocketHandle.is_valid_handle, SocketHandle.to_bool]
  · cases hv : f.is_valid_handle p
    · refine ⟨by simp [SocketFD.accept_handle, hv, SocketFD.from_native],
        ⟨kInvalid p⟩, by simp [SocketFD.accept_handle, hv, SocketFD.from_native], ?_⟩
      simp [SocketFD.is_valid_handle, SocketFD.to_bool]
    · refine ⟨by simp [SocketFD.accept_handle, hv, SocketFD.from_native, sys],
        ⟨os.ret w.trace (.accept f._handle addr addrlen)⟩,
        by simp [SocketFD.accept_handle, hv, SocketFD.from_native, sys], ?_⟩
      simp [SocketFD.is_valid_handle, SocketFD.to_bool]

/-- C10: the factories call the native `socket` exactly once and fail exactly on the
sentinel. `create_socket_handle` and `create_socket_fd` append the single call
`socket(AF_UNSPEC, SOCK_STREAM, 0)` to the trace, whether they fail or not. If the call
returns `kInvalid` they throw a `std::system_error` carrying the last error code as it
stands after the call; otherwise they return an object holding the value returned, which is
valid. So they throw if and only if the call returned `kInvalid`. -/
theorem create_socket_calls_once (p : Platform) (os : OS) (w : World) :
    ((SocketHandle.create_socket_handle p os w).2.trace
        = w.trace ++ [.socket AF_UNSPEC SOCK_STREAM 0] ∧
      (SocketHandle.create_socket_handle p os w).1 =
        (if os.ret w.trace (.socket AF_UNSPEC SOCK_STREAM 0) = kInvalid p then
          .error ⟨os.last_error (w.trace ++ [.socket AF_UNSPEC SOCK_STREAM 0]),
            "socket() failed"⟩
        else .ok ⟨os.ret w.trace (.socket AF_UNSPEC SOCK_STREAM 0)⟩) ∧
      ((∃ e, (SocketHandle.create_socket_handle p os w).1 = .error e) ↔
        os.ret w.trace (.socket AF_UNSPEC SOCK_STREAM 0) = kInvalid p) ∧
      (∀ r, (SocketHandle.create_socket_handle p os w).1 = .ok r →
        r.is_valid_handle p = true ∧
        r.native_handle = os.ret w.trace (.socket AF_UNSPEC SOCK_STREAM 0))) ∧
    ((SocketFD.create_socket_fd p os w).2.trace
        = w.trace ++ [.socket AF_UNSPEC SOCK_STREAM 0] ∧
      (SocketFD.create_socket_fd p os w).1 =
        (if os.ret w.trace (.socket AF_UNSPEC SOCK_STREAM 0) = kInvalid p then
          .error ⟨os.last_error (w.trace ++ [.socket AF_UNSPEC SOCK_STREAM 0]),
            "socket() failed"⟩
        else .ok ⟨os.ret w.trace (.socket AF_UNSPEC SOCK_STREAM 0)⟩) ∧
      ((∃ e, (SocketFD.create_socket_fd p os w).1 = .error e) ↔
        os.ret w.trace (.socket AF_UNSPEC SOCK_STREAM 0) = kInvalid p) ∧
      (∀ r, (SocketFD.create_socket_fd p os w).1 = .ok r →
        r.is_valid_handle p = true ∧
        r.native_handle = os.ret w.trace (.socket AF_UNSPEC SOCK_STREAM 0))) := by
  constructor
  · by_cases hr : os.ret w.trace (.socket AF_UNSPEC SOCK_STREAM 0) = kInvalid p
    · simp [SocketHandle.create_socket_handle, sys, throw_last_error, hr]
    · refine ⟨by simp [SocketHandle.create_socket_handle, sys, hr],
        by simp [SocketHandle.create_socket_handle, sys, hr, SocketHandle.from_native],
        by simp [SocketHandle.create_socket_handle, sys, hr], ?_⟩
      intro r hok
      simp only [SocketHandle.create_socket_handle, sys, hr, if_false, Except.ok.injEq,
        SocketHandle.from_native] at hok
      subst hok
      simp [SocketHandle.is_valid_handle, SocketHandle.to_bool, SocketHandle.native_handle, hr]
  · by_cases hr : os.ret w.trace (.socket AF_UNSPEC SOCK_STREAM 0) = kInvalid p
    · simp [SocketFD.create_socket_fd, sys, throw_last_error, hr]
    · refine ⟨by simp [SocketFD.create_socket_fd, sys, hr],
        by simp [SocketFD.create_socket_fd, sys, hr, SocketFD.from_native],
        by simp [SocketFD.create_socket_fd, sys, hr], ?_⟩
      intro r hok
      simp only [SocketFD.create_socket_fd, sys, hr, if_false, Except.ok.injEq,
        SocketFD.from_native] at hok
      subst hok
      simp [SocketFD.is_valid_handle, SocketFD.to_bool, SocketFD.native_handle, hr]

/-- C11 fails as stated: `Socket::Socket()` returns normally after a creation failure. On
Linux, when `socket` fails with `-1` the constructor returns a `Socket` holding
`INVALID_SOCKET`; when `socket` gives 3 and the address-reuse `setsockopt` fails it returns a
`Socket` holding 3; on Windows, when `socket` gives `INVALID_SOCKET` it returns a `Socket`
holding it. In all three runs the caller sees no exception: the failure is on `std::cerr`
only. -/
theorem socket_ctor_swallows_failure :
    ((Socket.default_ctor .linux os_fail 514 ⟨0⟩ World.init).1
        = .ok ⟨⟨INVALID_SOCKET .linux⟩⟩ ∧
      (Socket.default_ctor .linux os_fail 514 ⟨0⟩ World.init).2.cerr
        = ["Socket failed with error: 9", "Socket failed with error"]) ∧
    ((Socket.default_ctor .linux os_no_reuse 514 ⟨0⟩ World.init).1 = .ok ⟨⟨3⟩⟩ ∧
      (Socket.default_ctor .linux os_no_reuse 514 ⟨0⟩ World.init).2.trace
        = [.socket AF_INET SOCK_STREAM 0, .setsockopt_reuseaddr 3 1, .close 3] ∧
      (Socket.default_ctor .linux os_no_reuse 514 ⟨0⟩ World.init).2.cerr
        = ["setsockopt failed with error: -1", "setsockopt failed with error"]) ∧
    ((Socket.default_ctor .win32 os_win_no_socket 514 ⟨0⟩ World.init).1
        = .ok ⟨⟨INVALID_SOCKET .win32⟩⟩ ∧
      (Socket.default_ctor .win32 os_win_no_socket 514 ⟨0⟩ World.init).2.cerr
        = ["Socket failed with error: 10024", "Socket failed with error"]) :=
  ⟨⟨rfl, by decide⟩, ⟨rfl, by decide, by decide⟩, ⟨rfl, by decide⟩⟩

/-- C11 as amended: `Socket::Socket()` reports a creation failure on `std::cerr` and
nowhere else. The constructor always returns normally, with a `Socket` `s`, having appended
some `lines` to `std::cerr`. Whenever the native `socket` call gives `INVALID_SOCKET` or the
address-reuse `setsockopt` on its result gives a non-zero code, `lines` is not empty. And if
`lines` is empty, `s` owns a valid handle: the last two native calls were `socket` and the
address-reuse `setsockopt` on `s._fd`, `socket` returned that value, it is not
`INVALID_SOCKET`, and `setsockopt` returned `0`. -/
theorem socket_ctor_reports_on_cerr_only (p : Platform) (os : OS) (wVersion : Nat)
    (fd0 : Socket.FD) (w : World) :
    ∃ s lines,
      (Socket.default_ctor p os wVersion fd0 w).1 = .ok s ∧
      (Socket.default_ctor p os wVersion fd0 w).2.cerr = w.cerr ++ lines ∧
      (∀ before,
        before = (match p with
          | .win32 => w.trace ++ [.WSAStartup 2 2]
          | .linux => w.trace) →
        (os.ret before (.socket AF_INET SOCK_STREAM 0) = INVALID_SOCKET p ∨
          os.ret (before ++ [.socket AF_INET SOCK_STREAM 0])
            (.setsockopt_reuseaddr (os.ret before (.socket AF_INET SOCK_STREAM 0)) 1) ≠ 0) →
        lines ≠ []) ∧
      (lines = [] →
        s._fd.raw ≠ INVALID_SOCKET p ∧
        ∃ before,
          (Socket.default_ctor p os wVersion fd0 w).2.trace
            = before ++ [.socket AF_INET SOCK_STREAM 0, .setsockopt_reuseaddr s._fd.raw 1] ∧
          s._fd.raw = os.ret before (.socket AF_INET SOCK_STREAM 0) ∧
          os.ret (before ++ [.socket AF_INET SOCK_STREAM 0])
            (.setsockopt_reuseaddr s._fd.raw 1) = 0) := by
  cases p
  · -- Windows
    by_cases h1 : os.ret w.trace (.WSAStartup 2 2) = 0
    · by_cases h2 : LOBYTE wVersion ≠ 2 ∨ HIBYTE wVersion ≠ 2
      · refine ⟨⟨fd0⟩,
          ["WSAStartup failed with error：Could not find a usable version of Winsock.dll.",
           "WSAStartup failed with error：Could not find a usable version of Winsock.dll."],
          ?_, ?_, ?_, ?_⟩ <;>
          simp [Socket.default_ctor, Socket.try_block, sys, write_cerr, h1, h2]
      · by_cases h3 : os.ret (w.trace ++ [.WSAStartup 2 2]) (.socket AF_INET SOCK_STREAM 0)
            = INVALID_SOCKET .win32
        · refine ⟨⟨⟨INVALID_SOCKET .win32⟩⟩,
            ["Socket failed with error: " ++ toString (os.last_error
              (w.trace ++ [.WSAStartup 2 2, .socket AF_INET SOCK_STREAM 0])),
             "Socket failed with error"],
            ?_, ?_, ?_, ?_⟩ <;>
            simp [Socket.default_ctor, Socket.try_block, sys, write_cerr, h1, h2, h3]
        · by_cases h4 : os.ret (w.trace ++ [.WSAStartup 2 2, .socket AF_INET SOCK_STREAM 0])
              (.setsockopt_reuseaddr
                (os.ret (w.trace ++ [.WSAStartup 2 2]) (.socket AF_INET SOCK_STREAM 0)) 1) = 0
          · refine ⟨⟨⟨os.ret (w.trace ++ [.WSAStartup 2 2]) (.socket AF_INET SOCK_STREAM 0)⟩⟩,
              [], ?_, ?_, ?_, ?_⟩
            · simp [Socket.default_ctor, Socket.try_block, sys, write_cerr, h1, h2, h3, h4]
            · simp [Socket.default_ctor, Socket.try_block, sys, write_cerr, h1, h2, h3, h4]
            · intro before hb hfail
              subst hb
              rcases hfail with hf | hf
              · exact absurd hf h3
              · exact absurd (by simpa using h4) hf
            · intro _
              refine ⟨h3, w.trace ++ [.WSAStartup 2 2], ?_, rfl, by simpa using h4⟩
              simp [Socket.default_ctor, Socket.try_block, sys, write_cerr, h1, h2, h3, h4]
          · refine ⟨⟨⟨os.ret (w.trace ++ [.WSAStartup 2 2]) (.socket AF_INET SOCK_STREAM 0)⟩⟩,
              ["setsockopt failed with error: " ++ toString
                (os.ret (w.trace ++ [.WSAStartup 2 2, .socket AF_INET SOCK_STREAM 0])
                  (.setsockopt_reuseaddr
                    (os.ret (w.trace ++ [.WSAStartup 2 2]) (.socket AF_INET SOCK_STREAM 0)) 1)),
               "setsockopt failed with error"],
              ?_, ?_, ?_, ?_⟩ <;>
              simp [Socket.default_ctor, Socket.try_block, sys, write_cerr, h1, h2, h3, h4]
    · refine ⟨⟨fd0⟩,
        ["WSAStartup failed with error: " ++ toString (os.ret w.trace (.WSAStartup 2 2)),
         "WSAStartup failed with error"],
        ?_, ?_, ?_, ?_⟩ <;>
        simp [Socket.default_ctor, Socket.try_block, sys, write_cerr, h1]
  · -- Linux
    by_cases h3 : os.ret w.trace (.socket AF_INET SOCK_STREAM 0) = INVALID_SOCKET .linux
    · refine ⟨⟨⟨INVALID_SOCKET .linux⟩⟩,
        ["Socket failed with error: " ++ toString (os.last_error
          (w.trace ++ [.socket AF_INET SOCK_STREAM 0])),
         "Socket failed with error"],
        ?_, ?_, ?_, ?_⟩ <;>
        simp [Socket.default_ctor, Socket.try_block, sys, write_cerr, h3]
    · by_cases h4 : os.ret (w.trace ++ [.socket AF_INET SOCK_STREAM 0])
          (.setsockopt_reuseaddr (os.ret w.trace (.socket AF_INET SOCK_STREAM 0)) 1) = 0
      · refine ⟨⟨⟨os.ret w.trace (.socket AF_INET SOCK_STREAM 0)⟩⟩, [], ?_, ?_, ?_, ?_⟩
        · simp [Socket.default_ctor, Socket.try_block, sys, write_cerr, h3, h4]
        · simp [Socket.default_ctor, Socket.try_block, sys, write_cerr, h3, h4]
        · intro before hb hfail
          subst hb
          rcases hfail with hf | hf
          · exact absurd hf h3
          · exact absurd h4 hf
        · intro _
          refine ⟨h3, w.trace, ?_, rfl, h4⟩
          simp [Socket.default_ctor, Socket.try_block, sys, write_cerr, h3, h4]
      · refine ⟨⟨⟨os.ret w.trace (.socket AF_INET SOCK_STREAM 0)⟩⟩,
          ["setsockopt failed with error: " ++ toString
            (os.ret (w.trace ++ [.socket AF_INET SOCK_STREAM 0])
              (.setsockopt_reuseaddr (os.ret w.trace (.socket AF_INET SOCK_STREAM 0)) 1)),
           "setsockopt failed with error"],
          ?_, ?_, ?_, ?_⟩ <;>
          simp [Socket.default_ctor, Socket.try_block, sys, write_cerr, h3, h4]

/-- C12 fails as stated, at `reset_handle` with the value the object already holds. A
`SocketHandle` (and a `SocketFD`) holding the open descriptor 5 on Linux, after
`reset_handle(5)`: the platform close was issued on 5, and the object holds 5 again and
`is_valid_handle()` is true. Its destructor then issues the platform close on 5 a second
time. -/
theorem reset_handle_to_own_value_keeps_closed_raw :
    ((SocketHandle.reset_handle .linux os_ok ⟨5⟩ 5 World.init).1.native_handle = 5 ∧
      (SocketHandle.reset_handle .linux os_ok ⟨5⟩ 5 World.init).1.is_valid_handle .linux
        = true ∧
      closed_raws (SocketHandle.reset_handle .linux os_ok ⟨5⟩ 5 World.init).2.trace = [5] ∧
      closed_raws
        (SocketHandle.dtor .linux os_ok
          (SocketHandle.reset_handle .linux os_ok ⟨5⟩ 5 World.init).1
          (SocketHandle.reset_handle .linux os_ok ⟨5⟩ 5 World.init).2).trace = [5, 5]) ∧
    ((SocketFD.reset_handle .linux os_ok ⟨5⟩ 5 World.init).1.native_handle = 5 ∧
      (SocketFD.reset_handle .linux os_ok ⟨5⟩ 5 World.init).1.is_valid_handle .linux
        = true ∧
      closed_raws (SocketFD.reset_handle .linux os_ok ⟨5⟩ 5 World.init).2.trace = [5] ∧
      closed_raws
        (SocketFD.dtor .linux os_ok
          (SocketFD.reset_handle .linux os_ok ⟨5⟩ 5 World.init).1
          (SocketFD.reset_handle .linux os_ok ⟨5⟩ 5 World.init).2).trace = [5, 5]) :=
  ⟨⟨rfl, by decide, by decide, by decide⟩, ⟨rfl, by decide, by decide, by decide⟩⟩

/-- C12 as amended: ownership soundness of `reset_handle` for a new value other than the
one held. For every object of either class holding `old`, every `v` different from `old`
and every OS behaviour, the calls `reset_handle(v)` appends to the trace contain the
platform close on `old` alone (and none when `old` is `kInvalid`), the object ends holding
`v`, and so, if the object is valid afterwards, the raw value it holds is not one this call
closed. -/
theorem reset_handle_sound_for_new_value (p : Platform) (os : OS) (old v : NativeSocketType)
    (w : World) (hne : v ≠ old) :
    (∃ issued, (SocketHandle.reset_handle p os ⟨old⟩ v w).2.trace = w.trace ++ issued ∧
      closed_raws issued = (if old = kInvalid p then [] else [old]) ∧
      (SocketHandle.reset_handle p os ⟨old⟩ v w).1.native_handle = v ∧
      ((SocketHandle.reset_handle p os ⟨old⟩ v w).1.is_valid_handle p = true →
        (SocketHandle.reset_handle p os ⟨old⟩ v w).1.native_handle ∉ closed_raws issued)) ∧
    (∃ issued, (SocketFD.reset_handle p os ⟨old⟩ v w).2.trace = w.trace ++ issued ∧
      closed_raws issued = (if old = kInvalid p then [] else [old]) ∧
      (SocketFD.reset_handle p os ⟨old⟩ v w).1.native_handle = v ∧
      ((SocketFD.reset_handle p os ⟨old⟩ v w).1.is_valid_handle p = true →
        (SocketFD.reset_handle p os ⟨old⟩ v w).1.native_handle ∉ closed_raws issued)) := by
  constructor
  · obtain ⟨issued, h1, h2⟩ := close_raw_trace .SocketHandle p os old w
    refine ⟨issued, h1, h2, rfl, ?_⟩
    intro _
    rw [h2]
    show v ∉ (if old = kInvalid p then [] else [old])
    by_cases ho : old = kInvalid p <;> simp [ho, hne]
  · obtain ⟨issued, h1, h2⟩ := close_raw_trace .SocketFD p os old w
    refine ⟨issued, h1, h2, rfl, ?_⟩
    intro _
    rw [h2]
    show v ∉ (if old = kInvalid p then [] else [old])
    by_cases ho : old = kInvalid p <;> simp [ho, hne]

/-- Witness for C12 as amended: a `SocketHandle` holding 5 on Linux and `reset_handle(6)`:
the close is issued on 5 and the object holds 6. -/
theorem reset_handle_sound_for_new_value_witness :
    (6 : NativeSocketType) ≠ 5 ∧
    ∃ issued,
      (SocketHandle.reset_handle .linux os_ok ⟨5⟩ 6 World.init).2.trace
        = World.init.trace ++ issued ∧
      closed_raws issued = [5] ∧
      (SocketHandle.reset_handle .linux os_ok ⟨5⟩ 6 World.init).1.native_handle = 6 ∧
      (SocketHandle.reset_handle .linux os_ok ⟨5⟩ 6 World.init).1.native_handle
        ∉ closed_raws issued :=
  ⟨by decide,
    (reset_handle_sound_for_new_value .linux os_ok 5 6 World.init (by decide)).1.imp
      (fun _ h => ⟨h.1, by simpa [kInvalid] using h.2.1, h.2.2.1, h.2.2.2 (by decide)⟩)⟩

end ref_storage.net
